import Mathlib

/-
Verification of the sprite/music page logic (src/script.js) of the
repository "sou segundo lugar".  The JavaScript is shallowly embedded:
the JS numbers this code manipulates are modelled as integers (every
constant involved is integral: SPRITE_WIDTH * SCALE = 64 * 1.75 = 112,
canvas sizes, the 60px scroll-bar strip, millisecond timestamps, second
counters); JS strings are modelled as lists of characters.  Browser
randomness is modelled by explicit oracle streams passed to the
functions that consume it, and DOM reads (canvas size, the message-box
rectangle) are passed as explicit environment values.
-/

namespace SouSegundo

/-! ## Rectangles and collision (src/script.js lines 240-316) -/

/-- An axis-aligned rectangle as produced by Character.getBounds and
getBoundingClientRect: position plus size. -/
structure Rect where
  x : ℤ
  y : ℤ
  width : ℤ
  height : ℤ
deriving DecidableEq

/-- Embedding of checkCollision (script.js 240-245): the two rectangles
collide unless one lies strictly beyond the other on some axis. -/
def checkCollision (rect1 rect2 : Rect) : Bool :=
  !(decide (rect1.x + rect1.width < rect2.x) ||
    decide (rect2.x + rect2.width < rect1.x) ||
    decide (rect1.y + rect1.height < rect2.y) ||
    decide (rect2.y + rect2.height < rect1.y))

/-- The predicate the spec's words describe for claim C6: the two OPEN
rectangles (interiors) intersect, so mere edge-touching never counts. -/
def interiorsIntersect (rect1 rect2 : Rect) : Prop :=
  rect2.x < rect1.x + rect1.width ∧ rect1.x < rect2.x + rect2.width ∧
  rect2.y < rect1.y + rect1.height ∧ rect1.y < rect2.y + rect2.height

instance (rect1 rect2 : Rect) : Decidable (interiorsIntersect rect1 rect2) := by
  unfold interiorsIntersect; infer_instance

/-! ## Placement engine (src/script.js lines 248-316) -/

/-- Sprite sheet geometry constants (script.js 13-17). -/
def SPRITE_WIDTH : ℤ := 64

/-- Sprite height constant (script.js 14). -/
def SPRITE_HEIGHT : ℤ := 64

/-- Display scale factor (script.js 17); 1.75 times 64 is exactly 112. -/
def scaledWidth : ℤ := 112

/-- Scaled sprite height, SPRITE_HEIGHT * SCALE. -/
def scaledHeight : ℤ := 112

/-- DOM environment read by the placement engine: canvas size and the
bounding rectangle of the startMessage box (if present). -/
structure UIEnv where
  canvasWidth : ℤ
  canvasHeight : ℤ
  messageBox : Option Rect

/-- Embedding of hasCollision (script.js 248-256): does the test
rectangle collide with any existing character's bounds? -/
def hasCollision (characters : List Rect) (x y width height : ℤ) : Bool :=
  characters.any (fun c => checkCollision ⟨x, y, width, height⟩ c)

/-- Embedding of hasUICollision (script.js 259-289): collision with the
top scroll-bar strip (height 60, full canvas width) or the message box. -/
def hasUICollision (env : UIEnv) (x y width height : ℤ) : Bool :=
  let testRect : Rect := ⟨x, y, width, height⟩
  let scrollBarRect : Rect := ⟨0, 0, env.canvasWidth, 60⟩
  if checkCollision testRect scrollBarRect then true
  else
    match env.messageBox with
    | some messageBoxRect => checkCollision testRect messageBoxRect
    | none => false

/-- One sampled candidate of findRandomPosition.  The stream cand models
the successive values (Math.random() * maxX, 60 + Math.random() * (maxY - 60))
drawn at script.js 304-305; iteration i reads cand i. -/
def findRandomPositionAux (characters : List Rect) (env : UIEnv)
    (cand : Nat → ℤ × ℤ) : Nat → Nat → Option (ℤ × ℤ)
  | 0, _ => none
  | fuel + 1, i =>
    let x := (cand i).1
    let y := (cand i).2
    if !hasCollision characters x y scaledWidth scaledHeight &&
       !hasUICollision env x y scaledWidth scaledHeight then
      some (x, y)
    else
      findRandomPositionAux characters env cand fuel (i + 1)

/-- Embedding of findRandomPosition (script.js 292-316): up to 1000000
sampling attempts, returning the first non-colliding candidate, or null
(none) when the budget is exhausted. -/
def findRandomPosition (characters : List Rect) (env : UIEnv)
    (cand : Nat → ℤ × ℤ) : Option (ℤ × ℤ) :=
  findRandomPositionAux characters env cand 1000000 0

/-! ## Frame detector (src/script.js lines 158-236) -/

/-- One RGBA pixel of the sampled frame (each channel 0..255). -/
structure Pixel where
  r : Nat
  g : Nat
  b : Nat
  a : Nat
deriving DecidableEq

/-- The scanning loop of isFrameBlank (script.js 187-205): walks the
pixels tracking the first non-transparent pixel and whether some later
non-transparent pixel differs from it (in which case it breaks early).
Returns (firstPixel, hasContent). -/
def scanPixels : List Pixel → Option Pixel → Option Pixel × Bool
  | [], firstPixel => (firstPixel, false)
  | p :: rest, firstPixel =>
    if p.a > 0 then
      match firstPixel with
      | none => scanPixels rest (some p)
      | some q =>
        if p.r ≠ q.r ∨ p.g ≠ q.g ∨ p.b ≠ q.b ∨ p.a ≠ q.a then
          (some q, true)
        else
          scanPixels rest (some q)
    else
      scanPixels rest firstPixel

/-- Embedding of isFrameBlank (script.js 158-209) applied to the pixel
list of a frame cell: returns !hasContent && firstPixel === null. -/
def isFrameBlank (pixels : List Pixel) : Bool :=
  let scanned := scanPixels pixels none
  !scanned.2 && scanned.1 == none

/-- Cell invalidity as worded by the spec for claim C3 ("a cell is
invalid iff every opaque pixel in it has identical (r,g,b,a)"). -/
def specCellInvalid (pixels : List Pixel) : Prop :=
  ∀ p ∈ pixels, ∀ q ∈ pixels, p.a > 0 → q.a > 0 → p = q

instance (pixels : List Pixel) : Decidable (specCellInvalid pixels) := by
  unfold specCellInvalid; infer_instance

/-! ## Character animation state machine (src/script.js lines 29-110) -/

/-- The animation-relevant fields of a non-center Character instance
(script.js 29-56). -/
structure Character where
  validFrames : List Nat
  currentFrameIndex : Nat
  currentFrame : Nat
  rowRepeatCount : Nat
  currentRowRepeatTarget : Nat
deriving DecidableEq

/-- Ascending numeric sort, modelling validFrames.sort((a, b) => a - b)
at script.js 73. -/
def insertSorted (x : Nat) : List Nat → List Nat
  | [] => [x]
  | y :: t => if x ≤ y then x :: y :: t else y :: insertSorted x t

/-- Sorts a frame list ascending (JS Array.prototype.sort with numeric
comparator). -/
def sortFrames (l : List Nat) : List Nat := l.foldr insertSorted []

/-- Embedding of Character.selectRandomRow (script.js 65-82).
validRowFrames is the global framesByRow restricted to validRows (the
rows having at least one valid frame); choice models
Math.floor(Math.random() * validRows.length). -/
def Character.selectRandomRow (validRowFrames : List (List Nat))
    (choice : Nat) (c : Character) : Character :=
  if validRowFrames.length = 0 then c
  else
    let vf := sortFrames (validRowFrames.getD (choice % validRowFrames.length) [])
    { c with
      validFrames := vf
      currentRowRepeatTarget := vf.length
      rowRepeatCount := 0
      currentFrameIndex := 0
      currentFrame := vf.getD 0 0 }

/-- Embedding of the body of Character.update (script.js 84-110) that
runs on an elapsed-interval tick, i.e. once now - lastFrameTime has
reached frameChangeInterval: advance the cursor circularly; on wrap to
0 increment rowRepeatCount and, when the repeat target is reached,
select a new random row. -/
def Character.update (validRowFrames : List (List Nat)) (choice : Nat)
    (c : Character) : Character :=
  if c.validFrames.length = 0 then c
  else
    let i := (c.currentFrameIndex + 1) % c.validFrames.length
    let c1 := { c with currentFrameIndex := i, currentFrame := c.validFrames.getD i 0 }
    if i = 0 then
      let c2 := { c1 with rowRepeatCount := c1.rowRepeatCount + 1 }
      if c2.currentRowRepeatTarget ≤ c2.rowRepeatCount then
        Character.selectRandomRow validRowFrames choice c2
      else c2
    else c1

/-- n successive elapsed-interval ticks; tick k consumes oracle value
choiceStream k for any row re-selection it performs. -/
def Character.updateN (validRowFrames : List (List Nat))
    (choiceStream : Nat → Nat) (c : Character) : Nat → Character
  | 0 => c
  | n + 1 =>
    Character.update validRowFrames (choiceStream n)
      (Character.updateN validRowFrames choiceStream c n)

/-! ## Playback session state (src/script.js lines 141-155, 789-965) -/

/-- A song interval parsed from songs.txt: title plus [startTime, endTime)
in seconds (script.js 986-988). -/
structure Song where
  title : List Char
  startTime : Nat
  endTime : Nat
deriving DecidableEq

/-- The global playback-session variables of script.js (141-155) that the
play/pause toggle, the 100ms song timer and seeks mutate.  Timestamps are
milliseconds of a monotone wall clock (Date.now()); songTimer and
spawnTimer record whether the corresponding timer is scheduled. -/
structure Session where
  gameStarted : Bool
  hasEverStarted : Bool
  elapsedTime : Nat
  startTime : Nat
  songTimer : Bool
  spawnTimer : Bool
  audioDuration : Nat
deriving DecidableEq

/-- Embedding of the state effect of handleMessageBoxClick
(script.js 821-965), with now = Date.now() at the click.  The play
branch marks the game started, runs the first-activation block guarded
by hasEverStarted (script.js 887-899), then unconditionally restarts the
timer from zero (script.js 902-903) and schedules the song and spawn
timers.  The pause branch stops the game and clears both timers, leaving
elapsedTime untouched. -/
def handleMessageBoxClick (now : Nat) (s : Session) : Session :=
  if s.gameStarted = false then
    let s1 := { s with gameStarted := true }
    let s2 :=
      if s1.hasEverStarted = false then
        { s1 with elapsedTime := 0, hasEverStarted := true }
      else s1
    { s2 with startTime := now, elapsedTime := 0, songTimer := true, spawnTimer := true }
  else
    { s with gameStarted := false, songTimer := false, spawnTimer := false }

/-- Embedding of the songTimer callback (script.js 906-910), firing only
while the interval is scheduled: elapsedTime becomes
Math.floor((Date.now() - startTime) / 1000).  now is a wall-clock
timestamp with startTime ≤ now (Date.now is monotone within a session),
so natural subtraction and division model the JS expression exactly. -/
def songTimerTick (now : Nat) (s : Session) : Session :=
  if s.songTimer then { s with elapsedTime := (now - s.startTime) / 1000 } else s

/-- Embedding of the state effect of seekToSong (script.js 789-818):
if stopped, first runs the play/pause toggle; then sets elapsedTime to
the target and, when playing, rebases startTime so that subsequent ticks
continue from the target (script.js 808-811). -/
def seekToSong (startTimeSeconds now : Nat) (s : Session) : Session :=
  let s1 := if s.gameStarted = false then handleMessageBoxClick now s else s
  let s2 := { s1 with elapsedTime := startTimeSeconds }
  if s2.gameStarted then { s2 with startTime := now - startTimeSeconds * 1000 } else s2

/-- Embedding of the session effect of the audio ended listener
(script.js 1076-1103): stop the game and clear the song timer (character
teardown is modelled separately). -/
def audioEnded (s : Session) : Session :=
  { s with gameStarted := false, songTimer := false }

/-! ## Spawn controller (src/script.js lines 319-333, 916-928) -/

/-- The spawn-relevant globals: whether a spawn timeout is scheduled,
whether the game is running, and the character count. -/
structure SpawnState where
  gameStarted : Bool
  spawnTimer : Bool
  characterCount : Nat
deriving DecidableEq

/-- Embedding of addCharacter (script.js 319-333).  placement is the
result of findRandomPosition: on null the function clears any scheduled
spawn timeout and returns; otherwise it pushes a new character. -/
def addCharacter (placement : Option (ℤ × ℤ)) (s : SpawnState) : SpawnState :=
  match placement with
  | none => { s with spawnTimer := false }
  | some _ => { s with characterCount := s.characterCount + 1 }

/-- Embedding of the spawn timeout firing (the setTimeout callback of
scheduleNextSpawn, script.js 921-926).  When the timeout fires it is no
longer scheduled; the callback runs addCharacter and then, if
gameStarted is still true, calls scheduleNextSpawn, which sets a fresh
timeout (script.js 923-925). -/
def spawnTimerFired (placement : Option (ℤ × ℤ)) (s : SpawnState) : SpawnState :=
  let s1 := addCharacter placement { s with spawnTimer := false }
  if s1.gameStarted then { s1 with spawnTimer := true } else s1

/-! ## Timeline lookup (src/script.js lines 712-744) -/

/-- The active-song selection of updateScrollText (script.js 715-731):
linear scan for the first song whose [startTime, endTime) contains
elapsedTime; if none matches, the last song when elapsedTime is at or
past its endTime, otherwise the first song.  Returns none exactly when
the song list is empty (the early return at script.js 713). -/
def findCurrentSong (songs : List Song) (elapsedTime : Nat) : Option Song :=
  if songs.isEmpty then none
  else
    match songs.find? (fun song =>
        decide (song.startTime ≤ elapsedTime) && decide (elapsedTime < song.endTime)) with
    | some song => some song
    | none =>
      match songs.getLast? with
      | some last => if last.endTime ≤ elapsedTime then some last else songs.head?
      | none => none

/-! ## Time conversions (src/script.js lines 687-699) -/

/-- Decimal rendering of a natural number, modelling JS Number toString
for the non-negative integers handled here ("0" for zero, otherwise the
base-10 digits most significant first). -/
def natRepr (n : Nat) : List Char :=
  if n = 0 then ['0'] else ((Nat.digits 10 n).map Nat.digitChar).reverse

/-- Embedding of String.prototype.padStart(2, '0') (script.js 698):
prepend zeros up to length 2. -/
def padStart2 (s : List Char) : List Char :=
  if s.length < 2 then List.replicate (2 - s.length) '0' ++ s else s

/-- Embedding of secondsToTime (script.js 695-699): the template string
mins + ":" + padded seconds. -/
def secondsToTime (seconds : Nat) : List Char :=
  natRepr (seconds / 60) ++ ':' :: padStart2 (natRepr (seconds % 60))

/-- Embedding of String.prototype.split(':') (script.js 688): split the
character list at every colon. -/
def splitOnColon : List Char → List (List Char)
  | [] => [[]]
  | c :: rest =>
    if c = ':' then [] :: splitOnColon rest
    else
      match splitOnColon rest with
      | [] => [[c]]
      | part :: parts => (c :: part) :: parts

/-- Embedding of parseInt(str, 10) restricted to its digit-parsing core:
the longest leading run of decimal digits, none when there is no digit
(parseInt would yield NaN). -/
def jsParseInt (s : List Char) : Option Nat :=
  let digitsPart := s.takeWhile (fun c => c.isDigit)
  if digitsPart.isEmpty then none
  else some (digitsPart.foldl (fun acc c => 10 * acc + (c.toNat - 48)) 0)

/-- Embedding of timeToSeconds (script.js 687-692): split on ':', parse
both parts, return minutes * 60 + seconds; none models the NaN result on
malformed input. -/
def timeToSeconds (s : List Char) : Option Nat :=
  let parts := splitOnColon s
  match jsParseInt (parts.getD 0 []), jsParseInt (parts.getD 1 []) with
  | some minutes, some seconds => some (minutes * 60 + seconds)
  | _, _ => none

/-! ## End-of-session teardown (src/script.js lines 336-355) -/

/-- A character as the teardown sees it: its identity plus the isCenter
flag.  Distinct JS object identities are modelled by distinct ids. -/
structure CharRef where
  id : Nat
  isCenterCharacter : Bool
deriving DecidableEq

/-- Embedding of characters.indexOf(character) followed by splice
(script.js 349-352): remove the first occurrence, or leave the list
unchanged when the character is absent (indexOf === -1). -/
def removeChar (characters : List CharRef) (c : CharRef) : List CharRef :=
  match characters with
  | [] => []
  | d :: rest => if d = c then rest else d :: removeChar rest c

/-- The removal schedule built by removeCharactersOneByOne
(script.js 344-354): the non-center characters, each paired with its
setTimeout delay index * 500 ms. -/
def removalSchedule (characters : List CharRef) : List (Nat × CharRef) :=
  ((characters.filter (fun c => !c.isCenterCharacter)).enum).map
    (fun p => (p.1 * 500, p.2))

/-- The character list after every scheduled removal timeout of
removeCharactersOneByOne has fired. -/
def teardownFinal (characters : List CharRef) : List CharRef :=
  (characters.filter (fun c => !c.isCenterCharacter)).foldl removeChar characters

/-! ## Demo values used by concrete theorems -/

/-- The two-song list of the spec's timeline example. -/
def demoIntro : Song := ⟨"intro".toList, 0, 10⟩

/-- The second song of the spec's timeline example. -/
def demoVerse : Song := ⟨"verse".toList, 10, 40⟩

/-- The spec's example song list. -/
def demoSongs : List Song := [demoIntro, demoVerse]

/-- A session that was started once (hasEverStarted), is currently paused
(gameStarted false, no timers), and holds elapsedTime = 5 from the moment
of pausing. -/
def pausedSession : Session :=
  ⟨false, true, 5, 2000, false, false, 180⟩

/-- A fresh session with a 10-second audio file, before the first click. -/
def freshSession : Session :=
  ⟨false, false, 0, 0, false, false, 10⟩

/-- A playing spawn-controller state with a scheduled spawn timeout and
five characters on screen. -/
def playingSpawnState : SpawnState := ⟨true, true, 5⟩

/-- A frame cell whose pixels are all one uniform opaque color. -/
def uniformCell : List Pixel := [⟨200, 0, 0, 255⟩, ⟨200, 0, 0, 255⟩, ⟨200, 0, 0, 255⟩]

/-- A fully transparent frame cell. -/
def transparentCell : List Pixel := [⟨1, 2, 3, 0⟩, ⟨9, 9, 9, 0⟩]

/-! ## Theorems -/

/-- Claim C1 (code bug evaluation): resuming a previously-started, paused
session does not preserve the elapsed time held at the moment of pausing.
pausedSession holds elapsedTime = 5 with hasEverStarted = true, yet the
Stopped to Playing transition of handleMessageBoxClick resets elapsedTime
to 0 (script.js 902-903 run unconditionally), contradicting the claim and
the code's own pause-branch comment "keep elapsedTime for resume". -/
theorem resume_resets_elapsed_C1 :
    pausedSession.elapsedTime = 5 ∧
    pausedSession.hasEverStarted = true ∧
    (handleMessageBoxClick 100000 pausedSession).gameStarted = true ∧
    (handleMessageBoxClick 100000 pausedSession).elapsedTime = 0 ∧
    (handleMessageBoxClick 100000 pausedSession).elapsedTime ≠ pausedSession.elapsedTime := by
  decide

/-- Claim C2 (code bug evaluation): after the placement engine reports
Full (findRandomPosition returned null), the spawn timeout callback still
schedules another spawn attempt.  addCharacter clears the timer, but the
callback then sees gameStarted still true and calls scheduleNextSpawn
(script.js 923-925), so a fresh spawn timeout exists — contradicting the
claim and the code's own comment "Screen is full, stop spawning". -/
theorem spawn_rescheduled_after_full_C2 :
    playingSpawnState.gameStarted = true ∧
    (spawnTimerFired none playingSpawnState).characterCount =
      playingSpawnState.characterCount ∧
    (spawnTimerFired none playingSpawnState).spawnTimer = true := by
  decide

/-- Claim C3 (code bug evaluation): a cell whose opaque pixels are all one
uniform color satisfies the spec's invalidity condition (every opaque
pixel identical) yet isFrameBlank classifies it as NOT blank, because the
returned expression !hasContent && firstPixel === null (script.js 208)
additionally demands that no opaque pixel exists at all; only the fully
transparent cell is classified blank.  This contradicts the claim and the
code's own comments "blank (all transparent or all same color)". -/
theorem uniform_cell_not_blank_C3 :
    specCellInvalid uniformCell ∧
    isFrameBlank uniformCell = false ∧
    specCellInvalid transparentCell ∧
    isFrameBlank transparentCell = true := by
  decide

/-- Claim C6 (counterexample): two rectangles that merely touch along a
shared edge — the first one's far edge at x = 10 equals the second one's
near edge — have disjoint interiors, yet checkCollision reports them as
colliding, refuting the claim that edge-touching does not count. -/
theorem checkCollision_touching_counterexample_C6 :
    checkCollision ⟨0, 0, 10, 10⟩ ⟨10, 0, 10, 10⟩ = true ∧
    ¬ interiorsIntersect ⟨0, 0, 10, 10⟩ ⟨10, 0, 10, 10⟩ := by
  decide

/-- Claim C6 (amended): checkCollision reports overlap exactly when the
CLOSED bounding boxes intersect, i.e. with non-strict inequalities on all
four sides; edge-touching therefore counts as a collision. -/
theorem checkCollision_closed_overlap_C6 (rect1 rect2 : Rect) :
    checkCollision rect1 rect2 = true ↔
      (rect2.x ≤ rect1.x + rect1.width ∧ rect1.x ≤ rect2.x + rect2.width ∧
       rect2.y ≤ rect1.y + rect1.height ∧ rect1.y ≤ rect2.y + rect2.height) := by
  simp [checkCollision, not_or, not_lt]
  tauto

/-- Claim C8 (counterexample): elapsedTime is not bounded by
audioDuration.  Starting the fresh 10-second session at wall-clock 0 and
letting the 100ms song timer fire at wall-clock 20000 (the audio has
stalled, so the ended event has not yet fired) drives elapsedTime to 20,
strictly above totalDurationSeconds = 10 — the code never clamps it. -/
theorem elapsed_exceeds_duration_C8 :
    (songTimerTick 20000 (handleMessageBoxClick 0 freshSession)).elapsedTime = 20 ∧
    (songTimerTick 20000 (handleMessageBoxClick 0 freshSession)).audioDuration = 10 ∧
    ¬ ((songTimerTick 20000 (handleMessageBoxClick 0 freshSession)).elapsedTime ≤
        (songTimerTick 20000 (handleMessageBoxClick 0 freshSession)).audioDuration) := by
  decide

/-- Claim C8 (amended): while the song timer is scheduled (playing) and
no seek intervenes, elapsedTime is monotonically non-decreasing across
timer ticks, because each tick recomputes it as the floored wall-clock
delta from the fixed startTime; it is a natural number, hence never below
0.  The upper bound by audioDuration from the original claim does not
hold (see the counterexample). -/
theorem songTimerTick_monotone_C8 (s : Session) (now1 now2 : Nat)
    (hplaying : s.songTimer = true) (h12 : now1 ≤ now2) :
    (songTimerTick now1 s).elapsedTime ≤
      (songTimerTick now2 (songTimerTick now1 s)).elapsedTime := by
  simp only [songTimerTick, hplaying, if_true]
  exact Nat.div_le_div_right (Nat.sub_le_sub_right h12 _)

/-- Witness for claim C8's amended theorem at a concrete playing session
and tick instants 1000 and 2500. -/
theorem songTimerTick_monotone_C8_witness :
    (songTimerTick 1000 ⟨true, true, 0, 0, true, true, 180⟩).elapsedTime ≤
      (songTimerTick 2500 (songTimerTick 1000 ⟨true, true, 0, 0, true, true, 180⟩)).elapsedTime :=
  songTimerTick_monotone_C8 ⟨true, true, 0, 0, true, true, 180⟩ 1000 2500 (by decide) (by decide)

/-- Claim C4: the timeline's active-song lookup.  On the spec's example
list it returns "intro" at elapsed 5, "verse" at 10 and 39, and "verse"
(fallback to last) at 100; in general it selects the first song whose
[start, end) interval contains the elapsed time, and falls back to the
first song when the elapsed time precedes every song of a well-formed
(start ≤ end) non-empty list. -/
theorem findCurrentSong_spec_C4 :
    (findCurrentSong demoSongs 5 = some demoIntro ∧
     findCurrentSong demoSongs 10 = some demoVerse ∧
     findCurrentSong demoSongs 39 = some demoVerse ∧
     findCurrentSong demoSongs 100 = some demoVerse) ∧
    (∀ (songs : List Song) (elapsedTime : Nat) (song : Song),
      songs.find? (fun s =>
        decide (s.startTime ≤ elapsedTime) && decide (elapsedTime < s.endTime)) = some song →
      findCurrentSong songs elapsedTime = some song) ∧
    (∀ (songs : List Song) (elapsedTime : Nat),
      songs ≠ [] →
      (∀ s ∈ songs, s.startTime ≤ s.endTime) →
      (∀ s ∈ songs, elapsedTime < s.startTime) →
      findCurrentSong songs elapsedTime = songs.head?) := by
  refine ⟨by decide, ?_, ?_⟩
  · intro songs elapsedTime song hfind
    cases songs with
    | nil => simp at hfind
    | cons a t => simp [findCurrentSong, hfind]
  · intro songs elapsedTime hne hwf hbefore
    have hfind : songs.find? (fun s =>
        decide (s.startTime ≤ elapsedTime) && decide (elapsedTime < s.endTime)) = none := by
      rw [List.find?_eq_none]
      intro s hs
      simp [Nat.not_le.mpr (hbefore s hs)]
    obtain ⟨last, hlast⟩ := Option.isSome_iff_exists.mp (List.getLast?_isSome.mpr hne)
    have hmem : last ∈ songs := List.mem_of_mem_getLast? hlast
    have hlt : elapsedTime < last.endTime :=
      Nat.lt_of_lt_of_le (hbefore last hmem) (hwf last hmem)
    cases songs with
    | nil => exact absurd rfl hne
    | cons a t =>
      simp only [findCurrentSong, List.isEmpty_cons, hfind, hlast]
      simp [Nat.not_le.mpr hlt]

/-- Witness for claim C4's general parts: the first-match rule applied on
the demo list at elapsed 5, and the precedes-all fallback applied to a
one-song list at elapsed 2. -/
theorem findCurrentSong_spec_C4_witness :
    findCurrentSong demoSongs 5 = some demoIntro ∧
    findCurrentSong [⟨"x".toList, 5, 9⟩] 2 = ([⟨"x".toList, 5, 9⟩] : List Song).head? := by
  refine ⟨?_, ?_⟩
  · exact findCurrentSong_spec_C4.2.1 demoSongs 5 demoIntro (by decide)
  · exact findCurrentSong_spec_C4.2.2 [⟨"x".toList, 5, 9⟩] 2 (by decide) (by decide) (by decide)

/-- Helper: any position findRandomPositionAux accepts passed both
collision tests. -/
theorem findRandomPositionAux_some_safe (characters : List Rect) (env : UIEnv)
    (cand : Nat → ℤ × ℤ) :
    ∀ (fuel i : Nat) (x y : ℤ),
      findRandomPositionAux characters env cand fuel i = some (x, y) →
      hasCollision characters x y scaledWidth scaledHeight = false ∧
      hasUICollision env x y scaledWidth scaledHeight = false := by
  intro fuel
  induction fuel with
  | zero => intro i x y h; simp [findRandomPositionAux] at h
  | succ fuel ih =>
    intro i x y h
    rw [findRandomPositionAux] at h
    split at h
    · rename_i hcond
      rw [Bool.and_eq_true, Bool.not_eq_true', Bool.not_eq_true'] at hcond
      obtain ⟨hx, hy⟩ := Prod.mk.injEq .. ▸ Option.some.injEq .. ▸ h
      exact ⟨hx ▸ hy ▸ hcond.1, hx ▸ hy ▸ hcond.2⟩
    · exact ih (i + 1) x y h

/-- Helper: when every sampled candidate collides, findRandomPositionAux
exhausts its budget and returns none. -/
theorem findRandomPositionAux_all_blocked (characters : List Rect) (env : UIEnv)
    (cand : Nat → ℤ × ℤ)
    (hblocked : ∀ i,
      hasCollision characters (cand i).1 (cand i).2 scaledWidth scaledHeight = true ∨
      hasUICollision env (cand i).1 (cand i).2 scaledWidth scaledHeight = true) :
    ∀ fuel i, findRandomPositionAux characters env cand fuel i = none := by
  intro fuel
  induction fuel with
  | zero => intro i; rfl
  | succ fuel ih =>
    intro i
    rw [findRandomPositionAux]
    have hcond : (!hasCollision characters (cand i).1 (cand i).2 scaledWidth scaledHeight &&
        !hasUICollision env (cand i).1 (cand i).2 scaledWidth scaledHeight) = false := by
      rcases hblocked i with h | h <;> simp [h]
    rw [hcond]
    simpa using ih (i + 1)

/-- Claim C5: the placement engine never returns a position whose scaled
bounding box collides with an existing character's bounds or a UI
exclusion rectangle (top scroll-bar strip, message box) — any accepted
position passes both hasCollision and hasUICollision, hence fails
checkCollision against every existing character — and when every sampled
candidate collides it reports Full (null) after its fixed 1000000-try
budget instead of looping forever. -/
theorem findRandomPosition_safe_C5 :
    (∀ (characters : List Rect) (env : UIEnv) (cand : Nat → ℤ × ℤ) (x y : ℤ),
      findRandomPosition characters env cand = some (x, y) →
      hasCollision characters x y scaledWidth scaledHeight = false ∧
      hasUICollision env x y scaledWidth scaledHeight = false ∧
      ∀ r ∈ characters, checkCollision ⟨x, y, scaledWidth, scaledHeight⟩ r = false) ∧
    (∀ (characters : List Rect) (env : UIEnv) (cand : Nat → ℤ × ℤ),
      (∀ i,
        hasCollision characters (cand i).1 (cand i).2 scaledWidth scaledHeight = true ∨
        hasUICollision env (cand i).1 (cand i).2 scaledWidth scaledHeight = true) →
      findRandomPosition characters env cand = none) := by
  constructor
  · intro characters env cand x y h
    obtain ⟨hchars, hui⟩ := findRandomPositionAux_some_safe characters env cand 1000000 0 x y h
    refine ⟨hchars, hui, ?_⟩
    intro r hr
    have := List.any_eq_false.mp hchars r hr
    simpa using this
  · intro characters env cand hblocked
    exact findRandomPositionAux_all_blocked characters env cand hblocked 1000000 0

/-- Witness for claim C5: with no characters, an 800 x 600 canvas and no
message box, the candidate (86, 113) is accepted and indeed collides with
nothing; with every candidate stuck at (0, 0), inside the scroll-bar
strip, the engine reports Full. -/
theorem findRandomPosition_safe_C5_witness :
    (hasCollision [] 86 113 scaledWidth scaledHeight = false ∧
     hasUICollision ⟨800, 600, none⟩ 86 113 scaledWidth scaledHeight = false ∧
     ∀ r ∈ ([] : List Rect), checkCollision ⟨86, 113, scaledWidth, scaledHeight⟩ r = false) ∧
    findRandomPosition [] ⟨800, 600, none⟩ (fun _ => (0, 0)) = none := by
  constructor
  · exact findRandomPosition_safe_C5.1 [] ⟨800, 600, none⟩ (fun _ => (86, 113)) 86 113
      (by decide)
  · exact findRandomPosition_safe_C5.2 [] ⟨800, 600, none⟩ (fun _ => (0, 0))
      (fun i => Or.inr
        (show hasUICollision ⟨800, 600, none⟩ 0 0 scaledWidth scaledHeight = true by decide))

/-- Helper: during the first k < rowLength ticks from cursor 0 the cursor
walks 0, 1, ..., k without wrapping, and row, repeat counter and repeat
target stay untouched. -/
theorem updateN_no_wrap (vrf : List (List Nat)) (oracle : Nat → Nat)
    (c : Character) (n : Nat)
    (hidx : c.currentFrameIndex = 0) (hlen : c.validFrames.length = n) :
    ∀ k, k < n →
      (Character.updateN vrf oracle c k).currentFrameIndex = k ∧
      (Character.updateN vrf oracle c k).validFrames = c.validFrames ∧
      (Character.updateN vrf oracle c k).rowRepeatCount = c.rowRepeatCount ∧
      (Character.updateN vrf oracle c k).currentRowRepeatTarget = c.currentRowRepeatTarget := by
  intro k
  induction k with
  | zero => intro _; exact ⟨hidx, rfl, rfl, rfl⟩
  | succ k ih =>
    intro hk
    obtain ⟨hi, hv, hr, ht⟩ := ih (Nat.lt_of_succ_lt hk)
    have hn0 : n ≠ 0 := by omega
    have hmod : (k + 1) % n = k + 1 := Nat.mod_eq_of_lt hk
    rw [Character.updateN]
    simp [Character.update, hv, hi, hr, ht, hlen, hmod, hn0]

/-- Claim C7 (amended): for a non-center character whose cursor starts at
index 0 over a row of rowLength ≥ 1 valid frames, PROVIDED the repeat
target is not reached by this cycle (rowRepeatCount + 1 <
currentRowRepeatTarget; for a freshly selected row, whose target equals
rowLength, this means rowLength ≥ 2), after exactly rowLength ticks the
cursor has cycled back to 0, the repeat counter has been incremented by
exactly 1, and the row is unchanged.  When instead the target is reached
(e.g. a fresh row with rowLength = 1), the wrapping tick selects a new
random row and resets the counter to 0 — see the counterexample. -/
theorem updateN_row_cycle_C7 (vrf : List (List Nat)) (oracle : Nat → Nat)
    (c : Character) (n : Nat)
    (hidx : c.currentFrameIndex = 0) (hlen : c.validFrames.length = n) (hn : 0 < n)
    (htarget : c.rowRepeatCount + 1 < c.currentRowRepeatTarget) :
    (Character.updateN vrf oracle c n).currentFrameIndex = 0 ∧
    (Character.updateN vrf oracle c n).rowRepeatCount = c.rowRepeatCount + 1 ∧
    (Character.updateN vrf oracle c n).validFrames = c.validFrames := by
  obtain ⟨m, rfl⟩ : ∃ m, n = m + 1 := ⟨n - 1, (Nat.succ_pred_eq_of_pos hn).symm⟩
  obtain ⟨hi, hv, hr, ht⟩ :=
    updateN_no_wrap vrf oracle c (m + 1) hidx hlen m (Nat.lt_succ_self m)
  have hnotle : ¬ (c.currentRowRepeatTarget ≤ c.rowRepeatCount + 1) :=
    Nat.not_le.mpr htarget
  rw [Character.updateN]
  simp [Character.update, hv, hi, hr, ht, hlen, Nat.mod_self, hnotle]

/-- Witness for claim C7's amended theorem: a fresh three-frame row
(target 3), cursor 0, counter 0; after 3 ticks the cursor is back at 0,
the counter is 1 and the row is unchanged. -/
theorem updateN_row_cycle_C7_witness :
    (Character.updateN [[1, 2, 3]] (fun _ => 0) ⟨[1, 2, 3], 0, 1, 0, 3⟩ 3).currentFrameIndex = 0 ∧
    (Character.updateN [[1, 2, 3]] (fun _ => 0) ⟨[1, 2, 3], 0, 1, 0, 3⟩ 3).rowRepeatCount =
      (⟨[1, 2, 3], 0, 1, 0, 3⟩ : Character).rowRepeatCount + 1 ∧
    (Character.updateN [[1, 2, 3]] (fun _ => 0) ⟨[1, 2, 3], 0, 1, 0, 3⟩ 3).validFrames =
      (⟨[1, 2, 3], 0, 1, 0, 3⟩ : Character).validFrames :=
  updateN_row_cycle_C7 [[1, 2, 3]] (fun _ => 0) ⟨[1, 2, 3], 0, 1, 0, 3⟩ 3
    (by decide) (by decide) (by decide) (by decide)

/-- Claim C7 (counterexample): the claim as stated fails for a row with a
single valid frame.  selectRandomRow on the one-row sheet [[3]] yields a
character with rowLength 1, cursor 0, counter 0 and repeat target 1; after
exactly rowLength = 1 tick the wrap immediately reaches the target, so
selectRandomRow runs again and the repeat counter is 0, not the promised
0 + 1. -/
theorem single_frame_row_counterexample_C7 :
    (Character.selectRandomRow [[3]] 0 ⟨[], 0, 0, 0, 0⟩).validFrames.length = 1 ∧
    (Character.selectRandomRow [[3]] 0 ⟨[], 0, 0, 0, 0⟩).currentFrameIndex = 0 ∧
    (Character.selectRandomRow [[3]] 0 ⟨[], 0, 0, 0, 0⟩).rowRepeatCount = 0 ∧
    (Character.updateN [[3]] (fun _ => 0)
        (Character.selectRandomRow [[3]] 0 ⟨[], 0, 0, 0, 0⟩) 1).rowRepeatCount = 0 ∧
    (Character.updateN [[3]] (fun _ => 0)
        (Character.selectRandomRow [[3]] 0 ⟨[], 0, 0, 0, 0⟩) 1).rowRepeatCount ≠ 0 + 1 := by
  decide

/-- Helper: removing the head element removes exactly it. -/
theorem removeChar_cons_self (c : CharRef) (t : List CharRef) :
    removeChar (c :: t) c = t := by
  simp [removeChar]

/-- Helper: removing an element different from the head leaves the head. -/
theorem removeChar_cons_ne (a c : CharRef) (t : List CharRef) (h : a ≠ c) :
    removeChar (a :: t) c = a :: removeChar t c := by
  simp [removeChar, h]

/-- Helper: a head that none of the removals targets survives the whole
removal sequence in place. -/
theorem foldl_removeChar_cons (a : CharRef) :
    ∀ (rs t : List CharRef), a ∉ rs →
      rs.foldl removeChar (a :: t) = a :: rs.foldl removeChar t := by
  intro rs
  induction rs with
  | nil => intro t _; rfl
  | cons r rs ih =>
    intro t hmem
    have hne : a ≠ r := fun h => hmem (h ▸ List.mem_cons_self r rs)
    rw [List.foldl_cons, List.foldl_cons, removeChar_cons_ne a r t hne]
    exact ih (removeChar t r) (fun h => hmem (List.mem_cons_of_mem r h))

/-- Helper: removing, one by one, every element of l that satisfies p
leaves exactly the elements that do not satisfy p, in order. -/
theorem foldl_removeChar_filter (p : CharRef → Bool) :
    ∀ l : List CharRef, (l.filter p).foldl removeChar l = l.filter (fun a => !p a) := by
  intro l
  induction l with
  | nil => rfl
  | cons a t ih =>
    by_cases hp : p a
    · rw [List.filter_cons_of_pos hp, List.foldl_cons, removeChar_cons_self,
        List.filter_cons_of_neg (by simp [hp]), ih]
    · have hpa : p a = false := Bool.not_eq_true _ ▸ eq_false_of_ne_true hp
      have hnotin : a ∉ t.filter p := by
        intro hmem
        exact hp (List.of_mem_filter hmem)
      rw [List.filter_cons_of_neg (by simp [hpa]), List.filter_cons_of_pos (by simp [hpa]),
        foldl_removeChar_cons a (t.filter p) t hnotin, ih]

/-- Claim C9: after every scheduled removal timeout of
removeCharactersOneByOne has fired, the character list contains exactly
the characters with the isCenterCharacter flag set (order preserved); the
removals target exactly the non-center characters in order, one per fixed
500 ms step (delays 0, 500, 1000, ...). -/
theorem teardown_removes_noncenter_C9 (characters : List CharRef) :
    teardownFinal characters = characters.filter (fun c => c.isCenterCharacter) ∧
    (removalSchedule characters).map Prod.snd =
      characters.filter (fun c => !c.isCenterCharacter) ∧
    (removalSchedule characters).map Prod.fst =
      (List.range (characters.filter (fun c => !c.isCenterCharacter)).length).map
        (fun i => i * 500) := by
  refine ⟨?_, ?_, ?_⟩
  · rw [teardownFinal, foldl_removeChar_filter]
    simp
  · rw [removalSchedule, List.map_map]
    have : (Prod.snd ∘ fun p : Nat × CharRef => (p.1 * 500, p.2)) = Prod.snd := rfl
    rw [this, List.enum_map_snd]
  · rw [removalSchedule, List.map_map]
    have h1 : (Prod.fst ∘ fun p : Nat × CharRef => (p.1 * 500, p.2)) =
        (fun i => i * 500) ∘ Prod.fst := rfl
    rw [h1, ← List.map_map, List.enum_map_fst]

/-- Helper: the character of a decimal digit is a digit character, maps
back to its value under toNat - 48, and is not a colon. -/
theorem digitChar_props (d : Nat) (h : d < 10) :
    (Nat.digitChar d).isDigit = true ∧ (Nat.digitChar d).toNat - 48 = d ∧
      Nat.digitChar d ≠ ':' := by
  interval_cases d <;> decide

/-- Helper: every character of natRepr n is a decimal digit and not a
colon. -/
theorem natRepr_digits (n : Nat) : ∀ c ∈ natRepr n, c.isDigit = true ∧ c ≠ ':' := by
  intro c hc
  rw [natRepr] at hc
  split at hc
  · rw [List.mem_singleton] at hc
    subst hc
    exact ⟨by decide, by decide⟩
  · rename_i h0
    rw [List.mem_reverse] at hc
    obtain ⟨d, hd, rfl⟩ := List.mem_map.mp hc
    have hlt : d < 10 := Nat.digits_lt_base (by norm_num) hd
    exact ⟨(digitChar_props d hlt).1, (digitChar_props d hlt).2.2⟩

/-- Helper: natRepr never produces the empty string. -/
theorem natRepr_ne_nil (n : Nat) : natRepr n ≠ [] := by
  rw [natRepr]
  split
  · simp
  · rename_i h0
    simp [Nat.digits_ne_nil_iff_ne_zero.mpr h0]

/-- Helper: folding the base-10 accumulation over a digit list (most
significant first presented via digitChar) computes the usual value. -/
theorem foldr_digit_base10 (a : Nat) :
    ∀ l : List Nat, (∀ d ∈ l, d < 10) →
      l.foldr (fun d acc => 10 * acc + ((Nat.digitChar d).toNat - 48)) a =
        a * 10 ^ l.length + Nat.ofDigits 10 l := by
  intro l
  induction l with
  | nil => intro _; simp
  | cons d t ih =>
    intro h
    rw [List.foldr_cons, ih (fun x hx => h x (List.mem_cons_of_mem d hx)),
      (digitChar_props d (h d (List.mem_cons_self d t))).2.1, Nat.ofDigits_cons,
      List.length_cons, pow_succ]
    ring

/-- Helper: on a non-empty all-digit string, jsParseInt parses the whole
string with the base-10 fold. -/
theorem jsParseInt_all_digits (s : List Char) (hne : s ≠ [])
    (hd : ∀ c ∈ s, c.isDigit = true) :
    jsParseInt s = some (s.foldl (fun acc c => 10 * acc + (c.toNat - 48)) 0) := by
  have htw : s.takeWhile (fun c => c.isDigit) = s :=
    List.takeWhile_eq_self_iff.mpr (by simpa using hd)
  simp [jsParseInt, htw, hne]

/-- Helper: jsParseInt inverts natRepr. -/
theorem jsParseInt_natRepr (n : Nat) : jsParseInt (natRepr n) = some n := by
  by_cases h0 : n = 0
  · subst h0; decide
  · rw [jsParseInt_all_digits (natRepr n) (natRepr_ne_nil n)
      (fun c hc => (natRepr_digits n c hc).1)]
    rw [natRepr, if_neg h0, List.foldl_reverse, List.foldr_map]
    have hfold := foldr_digit_base10 0 (Nat.digits 10 n)
      (fun d hd => Nat.digits_lt_base (by norm_num) hd)
    simp only [Nat.zero_mul, Nat.zero_add, Nat.ofDigits_digits] at hfold
    rw [show (fun d (acc : Nat) => 10 * acc + ((Nat.digitChar d).toNat - 48)) =
        (fun x y => (fun acc c => 10 * acc + (c.toNat - 48)) y (Nat.digitChar x)) from rfl] at hfold
    rw [hfold]

/-- Helper: leading zero characters contribute nothing to the fold. -/
theorem foldl_step_zeros (k : Nat) :
    (List.replicate k '0').foldl (fun acc c => 10 * acc + (c.toNat - 48)) 0 = 0 := by
  induction k with
  | zero => rfl
  | succ k ih =>
    rw [List.replicate_succ, List.foldl_cons]
    have h : 10 * 0 + ('0'.toNat - 48) = 0 := by decide
    rw [h, ih]

/-- Helper: padStart2 does not change the parsed value of a non-empty
all-digit string. -/
theorem jsParseInt_padStart2 (s : List Char) (hne : s ≠ [])
    (hd : ∀ c ∈ s, c.isDigit = true) :
    jsParseInt (padStart2 s) = jsParseInt s := by
  rw [padStart2]
  split
  · have hall : ∀ c ∈ List.replicate (2 - s.length) '0' ++ s, c.isDigit = true := by
      intro c hc
      rcases List.mem_append.mp hc with h | h
      · rw [List.eq_of_mem_replicate h]; decide
      · exact hd c h
    have hne2 : List.replicate (2 - s.length) '0' ++ s ≠ [] :=
      fun h => hne (List.append_eq_nil.mp h).2
    rw [jsParseInt_all_digits _ hne2 hall, jsParseInt_all_digits s hne hd,
      List.foldl_append, foldl_step_zeros]
  · rfl

/-- Helper: splitting a colon-free string yields that single part. -/
theorem splitOnColon_no_colon :
    ∀ s : List Char, (∀ c ∈ s, c ≠ ':') → splitOnColon s = [s] := by
  intro s
  induction s with
  | nil => intro _; rfl
  | cons c rest ih =>
    intro h
    have hc : c ≠ ':' := h c (List.mem_cons_self c rest)
    rw [splitOnColon, if_neg hc, ih (fun x hx => h x (List.mem_cons_of_mem c hx))]

/-- Helper: splitting around the first colon isolates the colon-free
part before it. -/
theorem splitOnColon_append (a b : List Char) (h : ∀ c ∈ a, c ≠ ':') :
    splitOnColon (a ++ ':' :: b) = a :: splitOnColon b := by
  induction a with
  | nil => simp [splitOnColon]
  | cons c a' ih =>
    have hc : c ≠ ':' := h c (List.mem_cons_self c a')
    rw [List.cons_append, splitOnColon, if_neg hc,
      ih (fun x hx => h x (List.mem_cons_of_mem c hx))]

/-- Claim C10: the two time-conversion functions form a round trip on
non-negative integer second counts — converting n seconds to the M:SS
display string with secondsToTime and parsing it back with timeToSeconds
returns exactly n. -/
theorem timeToSeconds_secondsToTime_C10 (n : Nat) :
    timeToSeconds (secondsToTime n) = some n := by
  have hA : ∀ c ∈ natRepr (n / 60), c ≠ ':' :=
    fun c hc => (natRepr_digits _ c hc).2
  have hBdig : ∀ c ∈ natRepr (n % 60), c.isDigit = true :=
    fun c hc => (natRepr_digits _ c hc).1
  have hBcolon : ∀ c ∈ padStart2 (natRepr (n % 60)), c ≠ ':' := by
    intro c hc
    rw [padStart2] at hc
    split at hc
    · rcases List.mem_append.mp hc with h | h
      · rw [List.eq_of_mem_replicate h]; decide
      · exact (natRepr_digits _ c h).2
    · exact (natRepr_digits _ c hc).2
  simp only [timeToSeconds, secondsToTime]
  rw [splitOnColon_append _ _ hA, splitOnColon_no_colon _ hBcolon]
  simp only [List.getD_cons_zero, List.getD_cons_succ]
  rw [jsParseInt_natRepr, jsParseInt_padStart2 _ (natRepr_ne_nil _) hBdig,
    jsParseInt_natRepr]
  have := Nat.div_add_mod n 60
  simp only [Option.some.injEq]
  omega

end SouSegundo
